import Mathlib

/-!
Verification of the libswiftnav tracking estimators:
the Signal-to-Noise-Variance C/N0 estimator (`cn0_est_snv_init` /
`cn0_est_snv_update`) and the first-order low-pass IIR filter
(`lp1_filter_init` / `lp1_filter_update`), shallowly embedded over the
real numbers.  Single-precision `float` arithmetic is modelled by exact
real arithmetic; `log10f` is `Real.logb 10`, `sqrtf` is `Real.sqrt`,
`tanf` is `Real.tan`, `powf` is real exponentiation, and `fabsf` is `|·|`.
Each C function mutating a state struct and returning a value becomes a
Lean function from the state to a pair (new state, returned value).
-/

namespace Swiftnav

noncomputable section

/-- Model of `log10f` as the base-10 real logarithm. -/
def log10 (x : ℝ) : ℝ := Real.logb 10 x

/-! ## C/N0 estimator (Signal-to-Noise-Variance method) -/

/-- Multiplier for checking out-of bounds NSR (`1e-6f`). -/
def CN0_SNV_NSR_MIN_MULTIPLIER : ℝ := 1e-6

/-- Maximum supported NSR value (`1e6f`). -/
def CN0_SNV_NSR_MIN : ℝ := 1e6

/-- The estimator state struct `cn0_est_state_t`. -/
structure cn0_est_state_t where
  log_bw : ℝ
  I_prev_abs : ℝ
  Q_prev_abs : ℝ
  cn0 : ℝ

/-- Function `cn0_est_snv_init`: initialize the C/N0 estimator state. -/
def cn0_est_snv_init (bw cn0_0 f_s f_i : ℝ) : cn0_est_state_t :=
  { log_bw := 10 * log10 (bw * f_i / f_s)
    I_prev_abs := -1
    Q_prev_abs := -1
    cn0 := cn0_0 }

/-- Function `cn0_est_snv_update`: one update step of the C/N0 estimator.
Returns the updated state together with the returned C/N0 value. -/
def cn0_est_snv_update (s : cn0_est_state_t) (I Q : ℝ) :
    cn0_est_state_t × ℝ :=
  let I_abs := |I|
  let Q_abs := |Q|
  let I_prev_abs := s.I_prev_abs
  let Q_prev_abs := s.Q_prev_abs
  if I_prev_abs < 0 then
    -- first iteration: just update the prev state
    let s1 : cn0_est_state_t :=
      { log_bw := s.log_bw, I_prev_abs := I_abs, Q_prev_abs := Q_abs
        cn0 := s.cn0 }
    (s1, s1.cn0)
  else
    let P_s0 := 0.5 * (I_abs + I_prev_abs)
    let P_s := P_s0 * P_s0
    let P_tot := 0.5 * (Q_prev_abs * Q_prev_abs + I_prev_abs * I_prev_abs +
                    Q_abs * Q_abs + I_abs * I_abs)
    let P_n := P_tot - P_s
    let nsr := if P_s < P_n * CN0_SNV_NSR_MIN_MULTIPLIER then CN0_SNV_NSR_MIN
               else P_tot / P_s
    let nsr_db := 10 * log10 nsr
    let s1 : cn0_est_state_t :=
      { log_bw := s.log_bw, I_prev_abs := I_abs, Q_prev_abs := Q_abs
        cn0 := s.log_bw - nsr_db }
    (s1, s1.cn0)

/-- Reference update step written from the spec's words: past the
bootstrap, `P_s = (0.5*(absI + prevAbsI))^2`,
`P_tot = 0.5*(prevAbsI^2 + prevAbsQ^2 + absI^2 + absQ^2)`,
`nsr = 1e6` if `P_s < (P_tot - P_s)*1e-6` else `P_tot/P_s`, the returned
and stored `cn0` is `log_bw - 10*log10 nsr`, and `|I|`, `|Q|` are stored
as the new previous pair. -/
def cn0SpecUpdate (s : cn0_est_state_t) (I Q : ℝ) :
    cn0_est_state_t × ℝ :=
  let P_s := (0.5 * (|I| + s.I_prev_abs)) ^ 2
  let P_tot := 0.5 * (s.I_prev_abs ^ 2 + s.Q_prev_abs ^ 2 + |I| ^ 2 + |Q| ^ 2)
  let nsr := if P_s < (P_tot - P_s) * 1e-6 then (1e6 : ℝ) else P_tot / P_s
  let cn0 := s.log_bw - 10 * log10 nsr
  ({ log_bw := s.log_bw, I_prev_abs := |I|, Q_prev_abs := |Q|, cn0 := cn0 },
   cn0)

/-! ## First-order low-pass IIR filter -/

/-- The filter state struct `lp1_filter_t`. -/
structure lp1_filter_t where
  b : ℝ
  a : ℝ
  yn : ℝ
  xn : ℝ

/-- The constant `Ap = powf(10, -3/20)` from `lp1_filter_init`. -/
def lp1Ap : ℝ := (10 : ℝ) ^ ((-3 : ℝ) / 20)

/-- The argument handed to `sqrtf` in `lp1_filter_init`:
`1/(Ap*Ap - 1)`. -/
def lp1SqrtArg : ℝ := 1 / (lp1Ap * lp1Ap - 1)

/-- Function `lp1_filter_init`: derive the IIR coefficients and set up the
initial delay-line state. -/
def lp1_filter_init (initial cutoff_freq loop_freq : ℝ) : lp1_filter_t :=
  let Ts := 1 / loop_freq
  let wp := 10 * cutoff_freq * 2 * Real.pi * Ts
  let Op := 1 / (Real.pi * Ts) * Real.tan (wp / 2)
  let Oc := Op / Real.sqrt lp1SqrtArg
  let tmp := Oc * Ts
  let b := -tmp / (2 - tmp)
  let a := (-2 - tmp) / (2 - tmp)
  { b := b, a := a, yn := initial, xn := initial * b }

/-- Function `lp1_filter_update`: feed one value into the filter.  Returns the
updated state together with the returned filtered value. -/
def lp1_filter_update (f : lp1_filter_t) (value : ℝ) : lp1_filter_t × ℝ :=
  let tmp := f.b * value
  let yn := tmp + f.xn - f.a * f.yn
  ({ b := f.b, a := f.a, yn := yn, xn := tmp }, yn)

/-- Checked variant of `lp1_filter_init` that models the C error path
faithfully: `sqrtf` applied outside its domain (`lp1SqrtArg < 0`) yields
NaN in C, and that NaN propagates through every later operation into
both coefficients and every subsequent update, so no well-defined
filter state is ever produced.  The checked init returns `none` exactly
in that case and otherwise the state of `lp1_filter_init`. -/
def lp1_filter_init_checked (initial cutoff_freq loop_freq : ℝ) :
    Option lp1_filter_t :=
  if 0 ≤ lp1SqrtArg then some (lp1_filter_init initial cutoff_freq loop_freq)
  else none

/-- State after `n` successive zero-input updates of the filter. -/
def lp1ZeroIter (f : lp1_filter_t) : ℕ → lp1_filter_t
  | 0 => f
  | n + 1 => (lp1_filter_update (lp1ZeroIter f n) 0).1

end

/-! ## Helper lemmas -/

lemma log10_one : log10 1 = 0 := Real.logb_one

lemma log10_thousand : log10 1000 = 3 := by
  have h : (1000 : ℝ) = 10 ^ (3 : ℕ) := by norm_num
  rw [log10, h, Real.logb_pow, Real.logb_self_eq_one (by norm_num : (1:ℝ) < 10)]
  norm_num

lemma log10_thousandth : log10 (1 / 1000) = -3 := by
  rw [log10, one_div, Real.logb_inv]
  have h : Real.logb 10 1000 = 3 := log10_thousand
  rw [h]

lemma lp1Ap_lt_one : lp1Ap < 1 :=
  Real.rpow_lt_one_of_one_lt_of_neg (by norm_num) (by norm_num)

lemma lp1Ap_pos : 0 < lp1Ap := Real.rpow_pos_of_pos (by norm_num) _

lemma lp1SqrtArg_neg : lp1SqrtArg < 0 := by
  have h1 : lp1Ap * lp1Ap < 1 := by
    nlinarith [lp1Ap_lt_one, lp1Ap_pos]
  have h2 : lp1Ap * lp1Ap - 1 < 0 := by linarith
  exact one_div_neg.mpr h2

lemma cn0_update_I_prev (s : cn0_est_state_t) (I Q : ℝ) :
    (cn0_est_snv_update s I Q).1.I_prev_abs = |I| := by
  simp only [cn0_est_snv_update]
  split <;> rfl

lemma cn0_update_Q_prev (s : cn0_est_state_t) (I Q : ℝ) :
    (cn0_est_snv_update s I Q).1.Q_prev_abs = |Q| := by
  simp only [cn0_est_snv_update]
  split <;> rfl

lemma lp1ZeroIter_a (f : lp1_filter_t) (n : ℕ) : (lp1ZeroIter f n).a = f.a := by
  induction n with
  | zero => rfl
  | succ n ih => simp only [lp1ZeroIter, lp1_filter_update]; exact ih

lemma lp1ZeroIter_xn (f : lp1_filter_t) (n : ℕ) :
    (lp1ZeroIter f (n + 1)).xn = 0 := by
  simp [lp1ZeroIter, lp1_filter_update]

lemma lp1_zero_update_of_flushed (g : lp1_filter_t) (h : g.xn = 0) :
    (lp1_filter_update g 0).2 = -g.a * g.yn := by
  simp [lp1_filter_update, h]

/-! ## Claim theorems -/

/-- Claim C9: `lp1_filter_update` modifies only the delay-line fields
`xn` and `yn`; the coefficient fields `a` and `b` are unchanged by every
update call. -/
theorem lp1_update_preserves_coeffs (f : lp1_filter_t) (value : ℝ) :
    (lp1_filter_update f value).1.a = f.a ∧
    (lp1_filter_update f value).1.b = f.b := ⟨rfl, rfl⟩

/-- Claim C10: every call to `cn0_est_snv_update`, including the
bootstrap call, overwrites the previous-magnitude fields with `|I|` and
`|Q|`; hence after any update both fields are non-negative and the
sentinel test `I_prev_abs < 0` can never again succeed, so the bootstrap
branch is taken on at most the first update. -/
theorem cn0_update_prev_overwrite (s : cn0_est_state_t) (I Q : ℝ) :
    (cn0_est_snv_update s I Q).1.I_prev_abs = |I| ∧
    (cn0_est_snv_update s I Q).1.Q_prev_abs = |Q| ∧
    0 ≤ (cn0_est_snv_update s I Q).1.I_prev_abs ∧
    0 ≤ (cn0_est_snv_update s I Q).1.Q_prev_abs ∧
    ¬ (cn0_est_snv_update s I Q).1.I_prev_abs < 0 := by
  refine ⟨cn0_update_I_prev s I Q, cn0_update_Q_prev s I Q, ?_, ?_, ?_⟩
  · rw [cn0_update_I_prev]; exact abs_nonneg I
  · rw [cn0_update_Q_prev]; exact abs_nonneg Q
  · rw [cn0_update_I_prev]; exact not_lt.mpr (abs_nonneg I)

/-- Claim C4: for valid init parameters, the first call to
`cn0_est_snv_update` after `cn0_est_snv_init` returns exactly the
initial value `cn0_0` and leaves the stored `cn0` (and `log_bw`)
unchanged; only the previous-magnitude fields are written. -/
theorem cn0_first_update_bootstrap (bw cn0_0 f_s f_i I Q : ℝ)
    (hbw : 0 < bw) (hfs : 0 < f_s) :
    cn0_est_snv_update (cn0_est_snv_init bw cn0_0 f_s f_i) I Q =
      ({ log_bw := (cn0_est_snv_init bw cn0_0 f_s f_i).log_bw,
         I_prev_abs := |I|, Q_prev_abs := |Q|, cn0 := cn0_0 }, cn0_0) := by
  simp only [cn0_est_snv_init, cn0_est_snv_update]
  rw [if_pos (by norm_num : (-1 : ℝ) < 0)]

/-- Witness for claim C4 at `bw = 1`, `cn0_0 = 37`, `f_s = 1000`,
`f_i = 1`, `I = 5`, `Q = -2`. -/
theorem cn0_first_update_bootstrap_witness :
    ((0 : ℝ) < 1 ∧ (0 : ℝ) < 1000) ∧
    cn0_est_snv_update (cn0_est_snv_init 1 37 1000 1) 5 (-2) =
      ({ log_bw := (cn0_est_snv_init 1 37 1000 1).log_bw,
         I_prev_abs := |(5 : ℝ)|, Q_prev_abs := |(-2 : ℝ)|, cn0 := 37 }, 37) :=
  ⟨⟨by norm_num, by norm_num⟩,
   cn0_first_update_bootstrap 1 37 1000 1 5 (-2) (by norm_num) (by norm_num)⟩

/-- Claim C2 (refutation): the steady-state continuity law is
unsatisfiable in the program.  For every initial value and parameters —
the init preconditions included — the coefficient derivation applies
`sqrtf` to the negative constant `1/(Ap*Ap - 1)`, so the checked init
fails: in C both coefficients are NaN, `update(init v, v)` returns NaN
rather than `v`, and `2*b - a` is NaN rather than `1`. -/
theorem lp1_init_checked_none (v cutoff_freq loop_freq : ℝ) :
    lp1_filter_init_checked v cutoff_freq loop_freq = none := by
  simp [lp1_filter_init_checked, not_le.mpr lp1SqrtArg_neg]

/-- Claim C5 (refuting the in-domain property): the argument handed to
`sqrtf` in `lp1_filter_init`, namely `1/(Ap*Ap - 1)` with
`Ap = 10^(-3/20)`, is negative — for every choice of `cutoff_freq` and
`loop_freq`, since it does not depend on them at all.  In the C code
`sqrtf` of a negative argument yields NaN. -/
theorem lp1_sqrt_arg_negative : lp1SqrtArg < 0 := lp1SqrtArg_neg

/-- Claim C1: past the bootstrap (`0 ≤ I_prev_abs`), the code's update
step computes exactly the spec's reference definition. -/
theorem cn0_update_matches_spec (s : cn0_est_state_t) (I Q : ℝ)
    (h : 0 ≤ s.I_prev_abs) :
    cn0_est_snv_update s I Q = cn0SpecUpdate s I Q := by
  obtain ⟨lb, p, q, c⟩ := s
  simp only [cn0_est_state_t.I_prev_abs] at h
  simp only [cn0_est_snv_update, cn0SpecUpdate, CN0_SNV_NSR_MIN_MULTIPLIER,
    CN0_SNV_NSR_MIN]
  rw [if_neg (not_lt.mpr h)]
  have e1 : 0.5 * (q * q + p * p + |Q| * |Q| + |I| * |I|)
      = 0.5 * (p ^ 2 + q ^ 2 + |I| ^ 2 + |Q| ^ 2) := by ring
  have e2 : 0.5 * (|I| + p) * (0.5 * (|I| + p)) = (0.5 * (|I| + p)) ^ 2 := by
    ring
  rw [e1, e2]

/-- Witness for claim C1 at the state `⟨2, 3, 4, 5⟩` and inputs
`I = 6`, `Q = 7`. -/
theorem cn0_update_matches_spec_witness :
    (0 : ℝ) ≤ (cn0_est_state_t.mk 2 3 4 5).I_prev_abs ∧
    cn0_est_snv_update (cn0_est_state_t.mk 2 3 4 5) 6 7 =
      cn0SpecUpdate (cn0_est_state_t.mk 2 3 4 5) 6 7 :=
  ⟨by norm_num, cn0_update_matches_spec (cn0_est_state_t.mk 2 3 4 5) 6 7
    (by norm_num)⟩

/-- Claim C3 (refutation): from the post-bootstrap state reached after a
zero-input update (previous magnitudes both `0`), a further update with
`I = Q = 0` does not return `log_bw - 60`: the clamp condition becomes
`0 < 0`, which is false, so the code takes the division branch and
computes `nsr = 0/0` (NaN in C; the junk value `0` in exact real
arithmetic). -/
theorem cn0_zero_inputs_no_clamp :
    (cn0_est_snv_update (cn0_est_state_t.mk 0 0 0 42) 0 0).2 ≠ 0 - 60 := by
  norm_num [cn0_est_snv_update, CN0_SNV_NSR_MIN_MULTIPLIER, CN0_SNV_NSR_MIN,
    log10, Real.logb_zero]

/-- Claim C6 (refutation): with `log_bw = 0` and previous magnitudes
`1`, feeding `I = Q = 1` does not return `log_bw = 0`: the actual value
is `log_bw - 10*log10 2`, since `P_tot = 2*P_s` for constant `I = Q`. -/
theorem cn0_constant_iq_ne_log_bw :
    (cn0_est_snv_update (cn0_est_state_t.mk 0 1 1 99) 1 1).2 ≠ 0 := by
  intro h
  norm_num [cn0_est_snv_update, CN0_SNV_NSR_MIN_MULTIPLIER, CN0_SNV_NSR_MIN,
    log10] at h

/-- Claim C6 as amended: for every nonzero `c`, on each steady
constant-input update (previous magnitudes already `|c|`, inputs
`I = Q = c`) the estimator returns `log_bw - 10*log10 2` (not `log_bw`),
and the state stays at that fixed point. -/
theorem cn0_constant_iq_value (c lb x : ℝ) (hc : c ≠ 0) :
    cn0_est_snv_update (cn0_est_state_t.mk lb |c| |c| x) c c =
      (cn0_est_state_t.mk lb |c| |c| (lb - 10 * log10 2),
       lb - 10 * log10 2) := by
  have hA : (0 : ℝ) < |c| := abs_pos.mpr hc
  simp only [cn0_est_snv_update, CN0_SNV_NSR_MIN_MULTIPLIER, CN0_SNV_NSR_MIN]
  rw [if_neg (not_lt.mpr (abs_nonneg c))]
  rw [if_neg (show ¬ (0.5 * (|c| + |c|) * (0.5 * (|c| + |c|)) <
      (0.5 * (|c| * |c| + |c| * |c| + |c| * |c| + |c| * |c|) -
       0.5 * (|c| + |c|) * (0.5 * (|c| + |c|))) * 1e-6) by nlinarith)]
  rw [show 0.5 * (|c| * |c| + |c| * |c| + |c| * |c| + |c| * |c|) /
      (0.5 * (|c| + |c|) * (0.5 * (|c| + |c|))) = 2 by
    rw [div_eq_iff (ne_of_gt (by nlinarith :
      (0 : ℝ) < 0.5 * (|c| + |c|) * (0.5 * (|c| + |c|))))]
    ring]

/-- Witness for the amended claim C6 at `c = 2`, `lb = 0`, `x = 5`. -/
theorem cn0_constant_iq_value_witness :
    (2 : ℝ) ≠ 0 ∧
    cn0_est_snv_update (cn0_est_state_t.mk 0 |(2 : ℝ)| |(2 : ℝ)| 5) 2 2 =
      (cn0_est_state_t.mk 0 |(2 : ℝ)| |(2 : ℝ)| (0 - 10 * log10 2),
       0 - 10 * log10 2) :=
  ⟨by norm_num, cn0_constant_iq_value 2 0 5 (by norm_num)⟩

/-- Claim C7: with `bw = 1`, `f_s = 1000`, `f_i = 1` the computed
`log_bw` is exactly `-30`, and with `I = 1`, `Q = 0` fed on every
update, the second call to `cn0_est_snv_update` returns exactly `-30`,
for every initial value `cn0_0`. -/
theorem cn0_literal_example (cn0_0 : ℝ) :
    (cn0_est_snv_init 1 cn0_0 1000 1).log_bw = -30 ∧
    (cn0_est_snv_update
      (cn0_est_snv_update (cn0_est_snv_init 1 cn0_0 1000 1) 1 0).1 1 0).2 =
      -30 := by
  have h1 : (cn0_est_snv_init 1 cn0_0 1000 1).log_bw = -30 := by
    simp only [cn0_est_snv_init]
    rw [show (1 : ℝ) * 1 / 1000 = 1 / 1000 by norm_num, log10_thousandth]
    norm_num
  refine ⟨h1, ?_⟩
  have hstate : (cn0_est_snv_update (cn0_est_snv_init 1 cn0_0 1000 1) 1 0).1 =
      cn0_est_state_t.mk (cn0_est_snv_init 1 cn0_0 1000 1).log_bw 1 0 cn0_0 := by
    simp only [cn0_est_snv_init, cn0_est_snv_update]
    rw [if_pos (by norm_num : (-1 : ℝ) < 0)]
    norm_num
  rw [hstate, h1]
  norm_num [cn0_est_snv_update, CN0_SNV_NSR_MIN_MULTIPLIER, CN0_SNV_NSR_MIN,
    log10_one]

/-- Claim C8: impulse-then-zero decay.  After one update with a nonzero
value followed by repeated zero-input updates, each zero-input update
past the first (which flushes the delayed-input term `xn`) returns
`-a` times the previous output, so the output magnitude decays
geometrically with ratio `|a|` per step. -/
theorem lp1_impulse_decay (f : lp1_filter_t) (v : ℝ) (hv : v ≠ 0) (n : ℕ) :
    (lp1ZeroIter (lp1_filter_update f v).1 (n + 2)).yn =
      -f.a * (lp1ZeroIter (lp1_filter_update f v).1 (n + 1)).yn ∧
    |(lp1ZeroIter (lp1_filter_update f v).1 (n + 2)).yn| =
      |f.a| * |(lp1ZeroIter (lp1_filter_update f v).1 (n + 1)).yn| := by
  have ha : (lp1ZeroIter (lp1_filter_update f v).1 (n + 1)).a = f.a := by
    rw [lp1ZeroIter_a]
    rfl
  have hx : (lp1ZeroIter (lp1_filter_update f v).1 (n + 1)).xn = 0 :=
    lp1ZeroIter_xn (lp1_filter_update f v).1 n
  have hstep : (lp1ZeroIter (lp1_filter_update f v).1 (n + 2)).yn =
      -f.a * (lp1ZeroIter (lp1_filter_update f v).1 (n + 1)).yn := by
    have h0 : (lp1ZeroIter (lp1_filter_update f v).1 (n + 2)).yn =
        (lp1_filter_update (lp1ZeroIter (lp1_filter_update f v).1 (n + 1)) 0).2 :=
      rfl
    rw [h0, lp1_zero_update_of_flushed _ hx, ha]
  exact ⟨hstep, by rw [hstep, abs_mul, abs_neg]⟩

/-- Witness for claim C8 at the state `⟨1, 1, 1, 1⟩`, first input
`v = 1`, and step index `n = 0`. -/
theorem lp1_impulse_decay_witness :
    (1 : ℝ) ≠ 0 ∧
    ((lp1ZeroIter (lp1_filter_update (lp1_filter_t.mk 1 1 1 1) 1).1 2).yn =
       -(lp1_filter_t.mk 1 1 1 1).a *
         (lp1ZeroIter (lp1_filter_update (lp1_filter_t.mk 1 1 1 1) 1).1 1).yn ∧
     |(lp1ZeroIter (lp1_filter_update (lp1_filter_t.mk 1 1 1 1) 1).1 2).yn| =
       |(lp1_filter_t.mk 1 1 1 1).a| *
         |(lp1ZeroIter (lp1_filter_update (lp1_filter_t.mk 1 1 1 1) 1).1 1).yn|) :=
  ⟨by norm_num, lp1_impulse_decay (lp1_filter_t.mk 1 1 1 1) 1 (by norm_num) 0⟩

end Swiftnav
